import Mathlib

/-!
Verification of `plainbox/impl/session/jobs.py` (checkbox repository):
the job readiness-inhibitor data model and the per-job session state holder.

The Python code is shallowly embedded below.  Python `None` becomes
`Option.none`, fallible constructors and setters return `Except String`,
Python `int` becomes `Int`, and the gettext wrapper `_` is the identity
(source-locale strings).  `str.format` with `{!r}` on the simple identifier
strings used here is embedded as single-quote wrapping (`pyRepr`).
-/

namespace Checkbox

/-- External collaborator `plainbox.impl.unit.job.JobDefinition`: only the
attributes this module reads (`id`, `category_id`) are embedded. -/
structure JobDefinition where
  id : String
  category_id : String
deriving DecidableEq, Repr

/-- External collaborator `plainbox.impl.resource.ResourceExpression`: only
the attribute this module reads (`text`) is embedded. -/
structure ResourceExpression where
  text : String
deriving DecidableEq, Repr

/-- Python `repr` of the simple identifier strings appearing in messages
(no embedded quotes or backslashes): wraps the string in single quotes. -/
def pyRepr (s : String) : String := "'" ++ s ++ "'"

/-- `JobReadinessInhibitor.UNDESIRED, ..., FAILED_RESOURCE = range(5)`. -/
def UNDESIRED : Int := 0

def PENDING_DEP : Int := 1

def FAILED_DEP : Int := 2

def PENDING_RESOURCE : Int := 3

def FAILED_RESOURCE : Int := 4

/-- The `_cause_display` dictionary: `none` models a missing key. -/
def causeDisplay (c : Int) : Option String :=
  if c = UNDESIRED then some "UNDESIRED"
  else if c = PENDING_DEP then some "PENDING_DEP"
  else if c = FAILED_DEP then some "FAILED_DEP"
  else if c = PENDING_RESOURCE then some "PENDING_RESOURCE"
  else if c = FAILED_RESOURCE then some "FAILED_RESOURCE"
  else none

/-- `JobReadinessInhibitor`: the three POD fields `cause`, `related_job`,
`related_expression`. -/
structure JobReadinessInhibitor where
  cause : Int
  related_job : Option JobDefinition
  related_expression : Option ResourceExpression
deriving DecidableEq, Repr

/-- `JobReadinessInhibitor.__init__(self, cause, related_job=None,
related_expression=None)`: validates the cause and the presence of the
required fields, raising `ValueError` (embedded as `Except.error`) on
violation, and otherwise stores the three arguments unchanged. -/
def JobReadinessInhibitor.init (cause : Int) (related_job : Option JobDefinition)
    (related_expression : Option ResourceExpression) :
    Except String JobReadinessInhibitor :=
  match causeDisplay cause with
  | Option.none => Except.error "unsupported value for cause"
  | Option.some d =>
    if cause ≠ UNDESIRED ∧ related_job = Option.none then
      Except.error ("related_job must not be None when cause is " ++ d)
    else if (cause = PENDING_RESOURCE ∨ cause = FAILED_RESOURCE) ∧
        related_expression = Option.none then
      Except.error ("related_expression must not be None when cause is " ++ d)
    else
      Except.ok (JobReadinessInhibitor.mk cause related_job related_expression)

/-- `JobReadinessInhibitor.cause_name` property: `_cause_display[self.cause]`
(`none` models the `KeyError` on an unknown cause). -/
def JobReadinessInhibitor.cause_name (self : JobReadinessInhibitor) :
    Option String :=
  causeDisplay self.cause

/-- `JobReadinessInhibitor.__str__`: the per-cause human-readable
explanation.  `none` models the `AttributeError` raised when a message needs
`related_job.id` or `related_expression.text` but the field is `None`, and
the failure of the final `assert self.cause == self.FAILED_RESOURCE`. -/
def JobReadinessInhibitor.str (self : JobReadinessInhibitor) : Option String :=
  if self.cause = UNDESIRED then
    some "undesired"
  else if self.cause = PENDING_DEP then
    self.related_job.map (fun j =>
      "required dependency " ++ pyRepr j.id ++ " did not run yet")
  else if self.cause = FAILED_DEP then
    self.related_job.map (fun j =>
      "required dependency " ++ pyRepr j.id ++ " has failed")
  else if self.cause = PENDING_RESOURCE then
    self.related_expression.map (fun e =>
      "resource expression " ++ pyRepr e.text ++
        " could not be evaluated because the resource it depends on did not run yet")
  else if self.cause = FAILED_RESOURCE then
    self.related_expression.map (fun e =>
      "resource expression " ++ pyRepr e.text ++ " evaluates to false")
  else
    none

/-- The module-level constant `UndesiredJobReadinessInhibitor =
JobReadinessInhibitor(JobReadinessInhibitor.UNDESIRED)`: the single shared
instance with the `UNDESIRED` cause and no related job or expression. -/
def UndesiredJobReadinessInhibitor : JobReadinessInhibitor :=
  JobReadinessInhibitor.mk UNDESIRED Option.none Option.none

/-- Modelled from the spec: `pod.read_only_assign_filter` lives in
`plainbox/impl/pod.py`, which is not among the provided sources.  Per the
spec, inhibitor instances "are otherwise read-only after construction": the
filter accepts the initial assignment (old value unset) and rejects every
later assignment, aborting it with an error.  `old` is `Option.none` when
the field is still `UNSET`. -/
def read_only_assign_filter (old : Option α) (new : α) : Except String α :=
  match old with
  | Option.none => Except.ok new
  | Option.some _ => Except.error "cannot overwrite field with read-only filter"

/-- Post-construction assignment to the `cause` field: every field of a
constructed inhibitor holds a value, so the read-only filter sees a set old
value. -/
def JobReadinessInhibitor.assign_cause (self : JobReadinessInhibitor)
    (v : Int) : Except String JobReadinessInhibitor :=
  match read_only_assign_filter (Option.some self.cause) v with
  | Except.error e => Except.error e
  | Except.ok v' => Except.ok
      (JobReadinessInhibitor.mk v' self.related_job self.related_expression)

/-- Post-construction assignment to the `related_job` field (the stored
value, possibly `None`, is set once construction finished). -/
def JobReadinessInhibitor.assign_related_job (self : JobReadinessInhibitor)
    (v : Option JobDefinition) : Except String JobReadinessInhibitor :=
  match read_only_assign_filter (Option.some self.related_job) v with
  | Except.error e => Except.error e
  | Except.ok v' => Except.ok
      (JobReadinessInhibitor.mk self.cause v' self.related_expression)

/-- Post-construction assignment to the `related_expression` field. -/
def JobReadinessInhibitor.assign_related_expression
    (self : JobReadinessInhibitor) (v : Option ResourceExpression) :
    Except String JobReadinessInhibitor :=
  match read_only_assign_filter (Option.some self.related_expression) v with
  | Except.error e => Except.error e
  | Except.ok v' => Except.ok
      (JobReadinessInhibitor.mk self.cause self.related_job v')

/-- A Python value assignable to the `via_job` field: a real
`JobDefinition`, some other object such as a checksum string, or `None`. -/
inductive PyValue where
  | job (j : JobDefinition)
  | str (s : String)
  | pynone
deriving DecidableEq, Repr

/-- `isinstance(v, JobDefinition)` for a `PyValue`. -/
def PyValue.isJob : PyValue → Bool
  | PyValue.job _ => true
  | _ => false

/-- `job_via_assign_filter(instance, field, old_value, new_value)`: raises
`TypeError` when the old value is not `pod.UNSET` (embedded: `old` is
`some`) and the new value is not a `JobDefinition`; otherwise returns the
new value. -/
def job_via_assign_filter (old : Option PyValue) (new : PyValue) :
    Except String PyValue :=
  if old ≠ Option.none ∧ new.isJob = false then
    Except.error "via_job must be the actual job, not the checksum"
  else
    Except.ok new

/-- `plainbox.impl.result.MemoryJobResult`: only its construction from a
dictionary matters here (the `result` field default `MemoryJobResult({})`). -/
structure MemoryJobResult where
  data : List (String × String)
deriving DecidableEq, Repr

/-- `JobState`: the per-session state of one job.  `via_job` holds the value
the last (possibly initial) assignment stored; construction assigns the
field its default `None`, so post-construction it is never `UNSET`.
`effective_category_id_stored` is the stored value of the
`OverridableJobField`: `Option.none` models the `JOB_VALUE` sentinel. -/
structure JobState where
  job : JobDefinition
  readiness_inhibitor_list : List JobReadinessInhibitor
  result : MemoryJobResult
  via_job : PyValue
  effective_category_id_stored : Option String
deriving DecidableEq, Repr

/-- `JobState(job)`: construction with the field defaults —
`readiness_inhibitor_list` from `initial_fn=lambda:
[UndesiredJobReadinessInhibitor]`, `result` from `MemoryJobResult({})`,
`via_job` from the default `None`, and the `JOB_VALUE` sentinel stored in
`effective_category_id`. -/
def JobState.init (job : JobDefinition) : JobState :=
  JobState.mk job [UndesiredJobReadinessInhibitor] (MemoryJobResult.mk [])
    PyValue.pynone Option.none

/-- Assignment to `job` through `job_assign_filter` (the documented
session-restore backdoor): the filter returns the new value unchecked. -/
def JobState.set_job (s : JobState) (j : JobDefinition) : JobState :=
  JobState.mk j s.readiness_inhibitor_list s.result s.via_job
    s.effective_category_id_stored

/-- Assignment to `readiness_inhibitor_list` (no assign filter). -/
def JobState.set_readiness_inhibitor_list (s : JobState)
    (l : List JobReadinessInhibitor) : JobState :=
  JobState.mk s.job l s.result s.via_job s.effective_category_id_stored

/-- Assignment to `via_job` through `job_via_assign_filter`.  Construction
already stored a value in the field, so the filter's old value is set. -/
def JobState.set_via_job (s : JobState) (v : PyValue) :
    Except String JobState :=
  match job_via_assign_filter (Option.some s.via_job) v with
  | Except.error e => Except.error e
  | Except.ok v' => Except.ok (JobState.mk s.job s.readiness_inhibitor_list
      s.result v' s.effective_category_id_stored)

/-- Assignment to `effective_category_id`: stores the concrete value,
shadowing the sentinel. -/
def JobState.set_effective_category_id (s : JobState) (v : String) :
    JobState :=
  JobState.mk s.job s.readiness_inhibitor_list s.result s.via_job
    (Option.some v)

/-- Read of `effective_category_id` via `OverridableJobField.__get__`: when
the stored value is the `JOB_VALUE` sentinel, return
`getattr(instance.job, "category_id")`, else the stored value. -/
def JobState.effective_category_id (s : JobState) : String :=
  match s.effective_category_id_stored with
  | Option.none => s.job.category_id
  | Option.some v => v

/-- `JobState.can_start`: `len(self.readiness_inhibitor_list) == 0`. -/
def JobState.can_start (s : JobState) : Bool :=
  s.readiness_inhibitor_list.length == 0

/-- `JobState.get_readiness_description`: for a non-empty inhibitor list,
`"job cannot be started: "` followed by the comma-joined `str()` of each
inhibitor in list order; otherwise `"job can be started"`.  `none`
propagates a failure of `__str__` on some inhibitor. -/
def JobState.get_readiness_description (s : JobState) : Option String :=
  if s.readiness_inhibitor_list ≠ [] then
    (s.readiness_inhibitor_list.mapM JobReadinessInhibitor.str).map
      (fun l => "job cannot be started: " ++ String.intercalate ", " l)
  else
    some "job can be started"

/-- A concrete job definition for witnesses and counterexamples. -/
def jobA : JobDefinition := JobDefinition.mk "jobA" "catA"

/-- A second concrete job definition. -/
def jobB : JobDefinition := JobDefinition.mk "jobB" "catB"

/-- A concrete resource expression for witnesses and counterexamples. -/
def exprA : ResourceExpression := ResourceExpression.mk "cpu.cores > 2"

/-- Inversion of a successful construction: the stored fields are exactly
the arguments, the cause is a known one, and the required fields were
present. -/
theorem init_ok_inversion (c : Int) (rj : Option JobDefinition)
    (re : Option ResourceExpression) (i : JobReadinessInhibitor)
    (hi : JobReadinessInhibitor.init c rj re = Except.ok i) :
    i = JobReadinessInhibitor.mk c rj re
    ∧ (∃ d, causeDisplay c = Option.some d)
    ∧ ¬(c ≠ UNDESIRED ∧ rj = Option.none)
    ∧ ¬((c = PENDING_RESOURCE ∨ c = FAILED_RESOURCE) ∧ re = Option.none) := by
  unfold JobReadinessInhibitor.init at hi
  split at hi
  · cases hi
  · rename_i d hd
    split_ifs at hi with h1 h2
    cases hi
    exact ⟨rfl, ⟨d, hd⟩, h1, h2⟩

/-- C1: constructing a `JobReadinessInhibitor` fails immediately at
construction time whenever the cause is not `UNDESIRED` and no
`related_job` is given, and whenever the cause is `PENDING_RESOURCE` or
`FAILED_RESOURCE` and no `related_expression` is given; when the required
fields are present (for a defined cause), construction succeeds. -/
theorem inhibitor_init_requires_fields (c : Int) (rj : Option JobDefinition)
    (re : Option ResourceExpression) :
    (c ≠ UNDESIRED → rj = Option.none →
      ∃ e, JobReadinessInhibitor.init c rj re = Except.error e)
    ∧ ((c = PENDING_RESOURCE ∨ c = FAILED_RESOURCE) → re = Option.none →
      ∃ e, JobReadinessInhibitor.init c rj re = Except.error e)
    ∧ ((causeDisplay c).isSome = true →
      (c ≠ UNDESIRED → rj ≠ Option.none) →
      ((c = PENDING_RESOURCE ∨ c = FAILED_RESOURCE) → re ≠ Option.none) →
      JobReadinessInhibitor.init c rj re =
        Except.ok (JobReadinessInhibitor.mk c rj re)) := by
  refine ⟨?_, ?_, ?_⟩
  · intro h1 h2
    rcases hd : causeDisplay c with _ | d
    · exact ⟨"unsupported value for cause",
        by simp [JobReadinessInhibitor.init, hd]⟩
    · exact ⟨"related_job must not be None when cause is " ++ d,
        by simp [JobReadinessInhibitor.init, hd, h1, h2]⟩
  · intro h1 h2
    have hc0 : c ≠ UNDESIRED := by
      rcases h1 with h | h <;> simp [h, PENDING_RESOURCE, FAILED_RESOURCE, UNDESIRED]
    rcases hd : causeDisplay c with _ | d
    · exact ⟨"unsupported value for cause",
        by simp [JobReadinessInhibitor.init, hd]⟩
    · rcases rj with _ | j
      · exact ⟨"related_job must not be None when cause is " ++ d,
          by simp [JobReadinessInhibitor.init, hd, hc0]⟩
      · exact ⟨"related_expression must not be None when cause is " ++ d,
          by simp [JobReadinessInhibitor.init, hd, h1, h2]⟩
  · intro hs h1 h2
    rcases hd : causeDisplay c with _ | d
    · rw [hd] at hs; cases hs
    · have hc1 : ¬(c ≠ UNDESIRED ∧ rj = Option.none) := fun h => h1 h.1 h.2
      have hc2 : ¬((c = PENDING_RESOURCE ∨ c = FAILED_RESOURCE) ∧
          re = Option.none) := fun h => h2 h.1 h.2
      simp [JobReadinessInhibitor.init, hd, hc1, hc2]

/-- Witness for C1 at concrete inputs: `PENDING_DEP` without a job fails,
`PENDING_RESOURCE` without an expression fails, `FAILED_RESOURCE` with both
fields succeeds. -/
theorem inhibitor_init_requires_fields_wit :
    (∃ e, JobReadinessInhibitor.init PENDING_DEP Option.none Option.none =
      Except.error e)
    ∧ (∃ e, JobReadinessInhibitor.init PENDING_RESOURCE (Option.some jobA)
      Option.none = Except.error e)
    ∧ JobReadinessInhibitor.init FAILED_RESOURCE (Option.some jobA)
      (Option.some exprA) = Except.ok (JobReadinessInhibitor.mk
        FAILED_RESOURCE (Option.some jobA) (Option.some exprA)) :=
  ⟨(inhibitor_init_requires_fields PENDING_DEP Option.none Option.none).1
      (by decide) rfl,
    (inhibitor_init_requires_fields PENDING_RESOURCE (Option.some jobA)
      Option.none).2.1 (Or.inl rfl) rfl,
    (inhibitor_init_requires_fields FAILED_RESOURCE (Option.some jobA)
      (Option.some exprA)).2.2 rfl (fun _ => by simp) (fun _ => by simp)⟩

/-- C2 counterexample: the claim says construction must fail when cause is
`UNDESIRED` and a `related_job` is supplied, but at this concrete input the
code constructs the inhibitor successfully, storing the forbidden field. -/
theorem inhibitor_init_forbidden_field_cex :
    JobReadinessInhibitor.init UNDESIRED (Option.some jobA) Option.none =
      Except.ok (JobReadinessInhibitor.mk UNDESIRED (Option.some jobA)
        Option.none) := by
  simp [JobReadinessInhibitor.init, causeDisplay, UNDESIRED, PENDING_DEP,
    FAILED_DEP, PENDING_RESOURCE, FAILED_RESOURCE]

/-- C2 amended: construction does not reject forbidden fields — a cause of
`UNDESIRED` with a `related_job` supplied, or a dependency cause with a
`related_expression` supplied, constructs successfully and stores the
supplied fields; only the missing-required-field direction is enforced. -/
theorem inhibitor_init_accepts_forbidden_fields (rj : Option JobDefinition)
    (re : Option ResourceExpression) (j : JobDefinition) :
    JobReadinessInhibitor.init UNDESIRED rj re =
      Except.ok (JobReadinessInhibitor.mk UNDESIRED rj re)
    ∧ JobReadinessInhibitor.init PENDING_DEP (Option.some j) re =
      Except.ok (JobReadinessInhibitor.mk PENDING_DEP (Option.some j) re)
    ∧ JobReadinessInhibitor.init FAILED_DEP (Option.some j) re =
      Except.ok (JobReadinessInhibitor.mk FAILED_DEP (Option.some j) re) := by
  refine ⟨?_, ?_, ?_⟩ <;>
    simp [JobReadinessInhibitor.init, causeDisplay, UNDESIRED, PENDING_DEP,
      FAILED_DEP, PENDING_RESOURCE, FAILED_RESOURCE]

/-- C3: for every `JobState`, `can_start()` returns true if and only if its
`readiness_inhibitor_list` is empty. -/
theorem can_start_iff_inhibitor_list_empty (s : JobState) :
    s.can_start = true ↔ s.readiness_inhibitor_list = [] := by
  simp [JobState.can_start, List.length_eq_zero]

/-- C4: every newly created `JobState` has a readiness inhibitor list equal
to the one-element list holding the shared `UNDESIRED` constant (the
module-level instance built by `JobReadinessInhibitor(UNDESIRED)`, with no
related job or expression), so a fresh `JobState` cannot start. -/
theorem fresh_job_state_blocked_undesired (job : JobDefinition) :
    (JobState.init job).readiness_inhibitor_list =
      [UndesiredJobReadinessInhibitor]
    ∧ UndesiredJobReadinessInhibitor =
      JobReadinessInhibitor.mk UNDESIRED Option.none Option.none
    ∧ JobReadinessInhibitor.init UNDESIRED Option.none Option.none =
      Except.ok UndesiredJobReadinessInhibitor
    ∧ (JobState.init job).can_start = false := by
  refine ⟨rfl, rfl, ?_, rfl⟩
  simp [JobReadinessInhibitor.init, causeDisplay, UndesiredJobReadinessInhibitor,
    UNDESIRED, PENDING_DEP, FAILED_DEP, PENDING_RESOURCE, FAILED_RESOURCE]

/-- C5: while the stored value of `effective_category_id` is still the
sentinel, reading it returns the underlying job definition's `category_id`
(so it tracks a later change of the job); after a concrete value is
written, every subsequent read returns the written value even if the job
definition's own `category_id` later changes. -/
theorem effective_category_id_override (s : JobState) (v : String)
    (j : JobDefinition) (h : s.effective_category_id_stored = Option.none) :
    s.effective_category_id = s.job.category_id
    ∧ (s.set_job j).effective_category_id = j.category_id
    ∧ (s.set_effective_category_id v).effective_category_id = v
    ∧ ((s.set_effective_category_id v).set_job j).effective_category_id = v := by
  refine ⟨?_, ?_, rfl, rfl⟩ <;>
    simp [JobState.effective_category_id, JobState.set_job, h]

/-- Witness for C5 on a fresh `JobState` for `jobA`, overriding with
`"newcat"` and then swapping the job for `jobB`. -/
theorem effective_category_id_override_wit :
    (JobState.init jobA).effective_category_id = jobA.category_id
    ∧ ((JobState.init jobA).set_job jobB).effective_category_id =
      jobB.category_id
    ∧ ((JobState.init jobA).set_effective_category_id
      "newcat").effective_category_id = "newcat"
    ∧ (((JobState.init jobA).set_effective_category_id "newcat").set_job
      jobB).effective_category_id = "newcat" :=
  effective_category_id_override (JobState.init jobA) "newcat" jobB rfl

/-- C6 counterexample: on a `JobState` whose inhibitor list is empty, the
claim says the description is the string `"can be started"`, but the code
returns `"job can be started"`; and on a non-empty list the code prefixes
the comma-joined explanations with `"job cannot be started: "` rather than
returning the bare join. -/
theorem readiness_description_literal_cex :
    ((JobState.init jobA).set_readiness_inhibitor_list
      []).get_readiness_description = Option.some "job can be started"
    ∧ Option.some "job can be started" ≠ Option.some "can be started"
    ∧ (JobState.init jobA).get_readiness_description =
      Option.some "job cannot be started: undesired"
    ∧ Option.some "job cannot be started: undesired" ≠
      Option.some "undesired" := by
  exact ⟨rfl, by decide, rfl, by decide⟩

/-- C6 amended: `get_readiness_description()` returns
`"job can be started"` when the inhibitor list is empty, and otherwise
`"job cannot be started: "` followed by the comma-joined explanation of
every current inhibitor, in list order. -/
theorem readiness_description_spec (s : JobState) (exps : List String)
    (hexp : s.readiness_inhibitor_list.mapM JobReadinessInhibitor.str =
      Option.some exps) :
    (s.readiness_inhibitor_list = [] →
      s.get_readiness_description = Option.some "job can be started")
    ∧ (s.readiness_inhibitor_list ≠ [] →
      s.get_readiness_description = Option.some
        ("job cannot be started: " ++ String.intercalate ", " exps)) := by
  constructor
  · intro he
    simp [JobState.get_readiness_description, he]
  · intro hne
    unfold JobState.get_readiness_description
    rw [if_pos hne, hexp]
    rfl

/-- Witness for C6 (amended) on a fresh `JobState`, whose single inhibitor
renders as `"undesired"`. -/
theorem readiness_description_spec_wit :
    (JobState.init jobA).get_readiness_description =
      Option.some ("job cannot be started: " ++
        String.intercalate ", " ["undesired"]) :=
  (readiness_description_spec (JobState.init jobA) ["undesired"]
    rfl).2 (by simp [JobState.init])

/-- C7: for every validly constructed inhibitor, `cause_name` returns the
display name of its cause, and the explanation differs by cause:
`UNDESIRED` yields the generic `"undesired"` message naming no job or
expression; `PENDING_DEP` / `FAILED_DEP` name the related dependency job
(did not run yet vs has failed); `PENDING_RESOURCE` / `FAILED_RESOURCE`
name the related expression's source text (resource did not run yet vs
evaluates to false). -/
theorem inhibitor_cause_name_and_message (c : Int)
    (rj : Option JobDefinition) (re : Option ResourceExpression)
    (i : JobReadinessInhibitor)
    (hi : JobReadinessInhibitor.init c rj re = Except.ok i) :
    (∃ d, i.cause_name = Option.some d ∧ causeDisplay c = Option.some d)
    ∧ (c = UNDESIRED → i.str = Option.some "undesired")
    ∧ (c = PENDING_DEP → ∃ j, i.related_job = Option.some j ∧
      i.str = Option.some
        ("required dependency " ++ pyRepr j.id ++ " did not run yet"))
    ∧ (c = FAILED_DEP → ∃ j, i.related_job = Option.some j ∧
      i.str = Option.some
        ("required dependency " ++ pyRepr j.id ++ " has failed"))
    ∧ (c = PENDING_RESOURCE → ∃ e, i.related_expression = Option.some e ∧
      i.str = Option.some ("resource expression " ++ pyRepr e.text ++
        " could not be evaluated because the resource it depends on did not run yet"))
    ∧ (c = FAILED_RESOURCE → ∃ e, i.related_expression = Option.some e ∧
      i.str = Option.some
        ("resource expression " ++ pyRepr e.text ++ " evaluates to false")) := by
  obtain ⟨hieq, ⟨d, hd⟩, h1, h2⟩ := init_ok_inversion c rj re i hi
  subst hieq
  refine ⟨⟨d, hd, hd⟩, ?_, ?_, ?_, ?_, ?_⟩
  · intro hc
    subst hc
    simp [JobReadinessInhibitor.str]
  · intro hc
    subst hc
    rcases rj with _ | j
    · simp [PENDING_DEP, UNDESIRED] at h1
    · exact ⟨j, rfl, by simp [JobReadinessInhibitor.str, PENDING_DEP,
        UNDESIRED, FAILED_DEP, PENDING_RESOURCE, FAILED_RESOURCE]⟩
  · intro hc
    subst hc
    rcases rj with _ | j
    · simp [FAILED_DEP, UNDESIRED] at h1
    · exact ⟨j, rfl, by simp [JobReadinessInhibitor.str, PENDING_DEP,
        UNDESIRED, FAILED_DEP, PENDING_RESOURCE, FAILED_RESOURCE]⟩
  · intro hc
    subst hc
    rcases re with _ | e
    · simp [PENDING_RESOURCE] at h2
    · exact ⟨e, rfl, by simp [JobReadinessInhibitor.str, PENDING_DEP,
        UNDESIRED, FAILED_DEP, PENDING_RESOURCE, FAILED_RESOURCE]⟩
  · intro hc
    subst hc
    rcases re with _ | e
    · simp [FAILED_RESOURCE] at h2
    · exact ⟨e, rfl, by simp [JobReadinessInhibitor.str, PENDING_DEP,
        UNDESIRED, FAILED_DEP, PENDING_RESOURCE, FAILED_RESOURCE]⟩

/-- Witness for C7 on the concrete inhibitor built from `FAILED_RESOURCE`,
`jobA` and the expression `cpu.cores > 2`. -/
theorem inhibitor_cause_name_and_message_wit :
    (JobReadinessInhibitor.mk FAILED_RESOURCE (Option.some jobA)
      (Option.some exprA)).str =
      Option.some "resource expression 'cpu.cores > 2' evaluates to false" := by
  obtain ⟨e, he, hs⟩ := (inhibitor_cause_name_and_message FAILED_RESOURCE
    (Option.some jobA) (Option.some exprA)
    (JobReadinessInhibitor.mk FAILED_RESOURCE (Option.some jobA)
      (Option.some exprA))
    (by simp [JobReadinessInhibitor.init, causeDisplay, UNDESIRED,
      PENDING_DEP, FAILED_DEP, PENDING_RESOURCE,
      FAILED_RESOURCE])).2.2.2.2.2 rfl
  have he' : e = exprA := by
    have : Option.some exprA = Option.some e := he
    cases this
    rfl
  rw [hs, he']
  rfl

/-- C8: assigning `via_job` a value that is not a concrete job definition
raises an error (the `TypeError` guard against storing a checksum string),
while assigning a concrete job definition is accepted; this holds for every
`JobState`, so in particular after `via_job` holds a concrete job
definition it can never be set to anything that is not one. -/
theorem via_job_assignment_guard (s : JobState) (j : JobDefinition)
    (v : PyValue) (hv : v.isJob = false) :
    s.set_via_job (PyValue.job j) = Except.ok (JobState.mk s.job
      s.readiness_inhibitor_list s.result (PyValue.job j)
      s.effective_category_id_stored)
    ∧ s.set_via_job v =
      Except.error "via_job must be the actual job, not the checksum" := by
  constructor
  · simp [JobState.set_via_job, job_via_assign_filter, PyValue.isJob]
  · simp [JobState.set_via_job, job_via_assign_filter, hv]

/-- Witness for C8: on a fresh state, assigning the job definition `jobB`
succeeds and assigning a checksum string fails. -/
theorem via_job_assignment_guard_wit :
    (JobState.init jobA).set_via_job (PyValue.job jobB) =
      Except.ok (JobState.mk jobA [UndesiredJobReadinessInhibitor]
        (MemoryJobResult.mk []) (PyValue.job jobB) Option.none)
    ∧ (JobState.init jobA).set_via_job (PyValue.str "d0a51...") =
      Except.error "via_job must be the actual job, not the checksum" :=
  via_job_assignment_guard (JobState.init jobA) jobB
    (PyValue.str "d0a51...") rfl

/-- C9: a `JobReadinessInhibitor` is read-only after construction — every
post-construction assignment to `cause`, `related_job` or
`related_expression` fails, and the three fields are exactly the values
given at construction. -/
theorem inhibitor_read_only_after_construction (c : Int)
    (rj : Option JobDefinition) (re : Option ResourceExpression)
    (i : JobReadinessInhibitor)
    (hi : JobReadinessInhibitor.init c rj re = Except.ok i) :
    (∀ v, ∃ e, i.assign_cause v = Except.error e)
    ∧ (∀ v, ∃ e, i.assign_related_job v = Except.error e)
    ∧ (∀ v, ∃ e, i.assign_related_expression v = Except.error e)
    ∧ i.cause = c ∧ i.related_job = rj ∧ i.related_expression = re := by
  obtain ⟨hieq, -, -, -⟩ := init_ok_inversion c rj re i hi
  subst hieq
  exact ⟨fun v => ⟨_, rfl⟩, fun v => ⟨_, rfl⟩, fun v => ⟨_, rfl⟩,
    rfl, rfl, rfl⟩

/-- Witness for C9 on the shared `UNDESIRED` inhibitor: reassigning its
cause fails. -/
theorem inhibitor_read_only_after_construction_wit :
    ∃ e, UndesiredJobReadinessInhibitor.assign_cause PENDING_DEP =
      Except.error e :=
  (inhibitor_read_only_after_construction UNDESIRED Option.none Option.none
    UndesiredJobReadinessInhibitor
    (by simp [JobReadinessInhibitor.init, causeDisplay,
      UndesiredJobReadinessInhibitor, UNDESIRED, PENDING_DEP, FAILED_DEP,
      PENDING_RESOURCE, FAILED_RESOURCE])).1 PENDING_DEP

/-- C10: constructing a `JobReadinessInhibitor` with a cause outside the
five defined constants (the integers 0 through 4) raises `ValueError`
(`"unsupported value for cause"`), regardless of the supplied
`related_job` and `related_expression`. -/
theorem inhibitor_init_rejects_unknown_cause (c : Int)
    (rj : Option JobDefinition) (re : Option ResourceExpression)
    (h : c < 0 ∨ 4 < c) :
    JobReadinessInhibitor.init c rj re =
      Except.error "unsupported value for cause" := by
  have hd : causeDisplay c = Option.none := by
    rcases h with h | h <;>
      (unfold causeDisplay UNDESIRED PENDING_DEP FAILED_DEP PENDING_RESOURCE
        FAILED_RESOURCE;
        split_ifs <;> first | rfl | omega)
  simp [JobReadinessInhibitor.init, hd]

/-- Witness for C10 at causes 5 and -1, with both optional fields
supplied. -/
theorem inhibitor_init_rejects_unknown_cause_wit :
    JobReadinessInhibitor.init 5 (Option.some jobA) (Option.some exprA) =
      Except.error "unsupported value for cause"
    ∧ JobReadinessInhibitor.init (-1) (Option.some jobA)
      (Option.some exprA) = Except.error "unsupported value for cause" :=
  ⟨inhibitor_init_rejects_unknown_cause 5 (Option.some jobA)
      (Option.some exprA) (Or.inr (by norm_num)),
    inhibitor_init_rejects_unknown_cause (-1) (Option.some jobA)
      (Option.some exprA) (Or.inl (by norm_num))⟩

end Checkbox
